import Mathlib

/-!
Verification of the quipubase schema-driven record engine.

Definitions are a shallow embedding of `src/quipubase/qschemas.py`,
`src/quipubase/qdoc.py` and `src/quipubase/qapi.py`.  The native storage
engine `Quipu` (built from `qbase.pyx`, a RocksDB binding that is part of
the repository but not present under `src/`) is modelled from the spec's
storage-primitive and RecordStore sections.
-/

/-- Python literal values that appear in a JSON-schema `enum` list
(qschemas.py `cast_to_type`, enum branch). -/
inductive Lit where
  | str (s : String)
  | int (n : Int)
  | fl (n : Int)
  | bool (b : Bool)
  | null
deriving DecidableEq, Repr

/-- Name of the Python runtime type of a literal, as `type(x)` would report. -/
def pyTypeOf : Lit → String
  | .str _ => "str"
  | .int _ => "int"
  | .fl _ => "float"
  | .bool _ => "bool"
  | .null => "NoneType"

/-- Python `isinstance(v, t)` for literal values; `bool` is a subclass of
`int` in Python, which the enum type check inherits. -/
def pyIsInstance (v : Lit) (t : String) : Bool :=
  pyTypeOf v = t || (pyTypeOf v = "bool" && t = "int")

/-- The check `all(isinstance(value, type(enum_values[0])) for value in enum_values)`
from `cast_to_type` (qschemas.py line 60). -/
def allSameLitType (vs : List Lit) : Bool :=
  match vs with
  | [] => true
  | v0 :: _ => vs.all (fun v => pyIsInstance v (pyTypeOf v0))

/-- Python type annotations producible by `cast_to_type` /
`create_model_from_json_schema` (qschemas.py): primitives from `MAPPING`,
`None`, `typing.Any`, `Literal[...]`, `List[...]`, `Optional[...]`,
`Union[...]` (only ever built by `parse_anyof_oneof`), and a generated
pydantic model (name plus ordered fields, each field carrying its
annotation and whether it is required). -/
inductive PyType where
  | prim (name : String)
  | noneType
  | any
  | literal (vals : List Lit)
  | listOf (t : PyType)
  | optional (t : PyType)
  | union (ts : List PyType)
  | model (name : String) (fields : List (String × PyType × Bool))

mutual
/-- A JSON-schema dictionary as read by qschemas.py: the keys the code
looks up (`title`, `type`, `properties`, `items`, `enum`, `required`,
`anyOf`, `oneOf`), each optional.  `Props`/`Schemas` are the nested
property map and sub-schema list, given as a mutual family so that the
compiler's recursion is structural. -/
inductive Schema where
  | mk (title ty : Option String) (props : PropsOpt) (items : ItemsOpt)
       (enumv : Option (List Lit)) (required : Option (List String))
       (anyOf oneOf : SchemasOpt) : Schema

inductive PropsOpt where
  | none : PropsOpt
  | some (ps : Props) : PropsOpt

inductive Props where
  | nil : Props
  | cons (name : String) (s : Schema) (rest : Props) : Props

inductive ItemsOpt where
  | none : ItemsOpt
  | some (s : Schema) : ItemsOpt

inductive SchemasOpt where
  | none : SchemasOpt
  | some (ss : Schemas) : SchemasOpt

inductive Schemas where
  | nil : Schemas
  | cons (s : Schema) (rest : Schemas) : Schemas
end

/-- Accessor for the `title` key. -/
def Schema.title : Schema → Option String
  | .mk t _ _ _ _ _ _ _ => t

/-- Accessor for the `type` key. -/
def Schema.ty : Schema → Option String
  | .mk _ t _ _ _ _ _ _ => t

/-- Accessor for the `properties` key. -/
def Schema.props : Schema → PropsOpt
  | .mk _ _ p _ _ _ _ _ => p

/-- Accessor for the `items` key. -/
def Schema.items : Schema → ItemsOpt
  | .mk _ _ _ i _ _ _ _ => i

/-- Accessor for the `enum` key. -/
def Schema.enumv : Schema → Option (List Lit)
  | .mk _ _ _ _ e _ _ _ => e

/-- Accessor for the `required` key.  `create_model_from_json_schema`
never reads it; it is kept because claims refer to it. -/
def Schema.required : Schema → Option (List String)
  | .mk _ _ _ _ _ r _ _ => r

/-- Accessor for the `anyOf` key. -/
def Schema.anyOf : Schema → SchemasOpt
  | .mk _ _ _ _ _ _ a _ => a

/-- Accessor for the `oneOf` key. -/
def Schema.oneOf : Schema → SchemasOpt
  | .mk _ _ _ _ _ _ _ o => o

/-- Python truthiness of `schema.get("properties")`: `None` and the empty
dict are both falsy (qschemas.py line 63). -/
def propsTruthy : PropsOpt → Bool
  | .none => false
  | .some .nil => false
  | .some (.cons _ _ _) => true

/-- The `MAPPING` dict of qschemas.py (type keyword to Python type);
`"null"` maps to the value `None`, i.e. a `NoneType` annotation. -/
def MAPPING (t : String) : Option PyType :=
  if t = "string" then some (.prim "str")
  else if t = "integer" then some (.prim "int")
  else if t = "number" then some (.prim "float")
  else if t = "boolean" then some (.prim "bool")
  else if t = "object" then some (.prim "dict")
  else if t = "array" then some (.prim "list")
  else if t = "null" then some .noneType
  else none

/-- The final `else` branch of `cast_to_type`:
`MAPPING.get(schema.get("type", "string"), str)`. -/
def mappingBranch (ty : Option String) : PyType :=
  match MAPPING (ty.getD "string") with
  | some t => t
  | none => .prim "str"

/-- The class name given to `create_model`: `schema.get("title", "Model")`. -/
def className (s : Schema) : String :=
  (Schema.title s).getD "Model"

mutual
/-- Embedding of `cast_to_type` (qschemas.py lines 57-69).  The branch
order mirrors the source: an `enum` key is checked first (falling through
to `Any` when the literal types are mixed); then `type == "object"` with
truthy `properties` recurses into `create_model_from_json_schema` (whose
body over the same schema is the `model` value built here, since it only
reads `title` and `properties`); then `type == "array"` recurses into
`items` with `{}` as default (an empty schema compiles through the
`MAPPING` branch); otherwise `MAPPING.get(type, str)`.  The fall-through
`return Any` covers the mixed-enum and object-without-properties cases.
Note the function never reads `anyOf`/`oneOf`: `parse_anyof_oneof` is not
called anywhere in the compiler. -/
def castToType (s : Schema) : PyType :=
  match s with
  | .mk title ty props items enumv _ _ _ =>
    match enumv with
    | some vs => if allSameLitType vs then .literal vs else .any
    | none =>
      if ty = some "object" then
        match props with
        | .some ps =>
          if propsTruthy (.some ps) then .model (title.getD "Model") (castFields ps false)
          else .any
        | .none => .any
      else if ty = some "array" then
        match items with
        | .some it => .listOf (castToType it)
        | .none => .listOf (mappingBranch Option.none)
      else mappingBranch ty

/-- The attribute-building loops of `create_model_from_json_schema`
(qschemas.py lines 78-83): in non-partial mode each property maps to
`(cast_to_type(value), ...)` (required); in partial mode to
`(Optional[cast_to_type(value)], None)` (optional). -/
def castFields (ps : Props) (optMode : Bool) : List (String × PyType × Bool) :=
  match ps with
  | .nil => []
  | .cons k v rest =>
    (if optMode then (k, .optional (castToType v), false) else (k, castToType v, true))
      :: castFields rest optMode
end

/-- Embedding of `create_model_from_json_schema` (qschemas.py lines 72-84):
reads `title` (default `"Model"`) and `properties` (default `{}`), builds
the attribute list in the mode given by `partial`, and never reads the
schema's `required` key. -/
def createModelFields (s : Schema) (optMode : Bool) : List (String × PyType × Bool) :=
  match Schema.props s with
  | .some ps => castFields ps optMode
  | .none => []

/-- The generated pydantic model as a value: class name plus fields. -/
def createModel (s : Schema) (optMode : Bool) : PyType :=
  .model (className s) (createModelFields s optMode)

/-- Compile each sub-schema of an `anyOf`/`oneOf` list, as the generator
expressions inside `parse_anyof_oneof` do. -/
def castList : Schemas → List PyType
  | .nil => []
  | .cons s rest => castToType s :: castList rest

/-- Embedding of `parse_anyof_oneof` (qschemas.py lines 32-42): a `Union`
over the per-branch `cast_to_type` results when `anyOf` or `oneOf` is
present, else `None`.  This function exists in the module but is not
invoked by `cast_to_type` or `create_model_from_json_schema`. -/
def parseAnyofOneof (s : Schema) : Option PyType :=
  match Schema.anyOf s with
  | .some ss => some (.union (castList ss))
  | .none =>
    match Schema.oneOf s with
    | .some ss => some (.union (castList ss))
    | .none => none

/-- A schema with the top-level `anyOf`/`oneOf` keys removed, used to
state that the compiler ignores them. -/
def stripUnions : Schema → Schema
  | .mk t ty pr it en rq _ _ => .mk t ty pr it en rq .none .none

mutual
/-- Count of `create_model` invocations performed by one call
`create_model_from_json_schema(s, ·)`: one for `s` itself plus those
triggered by `cast_to_type` on nested object sub-schemas.  Used to state
that the compiler has no cache: qapi.py's `create_class` calls
`create_model_from_json_schema` unconditionally on every request and the
module holds no memo table. -/
def modelBuilds : Schema → Nat
  | .mk _ _ props _ _ _ _ _ =>
    1 + (match props with
         | .some ps => fieldsBuilds ps
         | .none => 0)

def fieldsBuilds : Props → Nat
  | .nil => 0
  | .cons _ v rest => castBuilds v + fieldsBuilds rest

def castBuilds : Schema → Nat
  | .mk _ ty props items enumv _ _ _ =>
    match enumv with
    | some _ => 0
    | none =>
      if ty = some "object" then
        match props with
        | .some ps => if propsTruthy (.some ps) then 1 + fieldsBuilds ps else 0
        | .none => 0
      else if ty = some "array" then
        match items with
        | .some it => castBuilds it
        | .none => 0
      else 0
end

mutual
/-- A stored JSON value (an entry of a record's `model_dump()`): strings,
integers, floats, booleans, `None`, arrays and nested objects.  Object
fields are the mutual `ValFields` so that the spec's deep-merge recursion
is structural. -/
inductive Val where
  | str (s : String) : Val
  | int (n : Int) : Val
  | fl (n : Int) : Val
  | bool (b : Bool) : Val
  | null : Val
  | arr (xs : ValList) : Val
  | obj (fs : ValFields) : Val

inductive ValList where
  | nil : ValList
  | cons (v : Val) (rest : ValList) : ValList

inductive ValFields where
  | nil : ValFields
  | cons (k : String) (v : Val) (rest : ValFields) : ValFields
end

/-- A record's serialized field map (`model_dump()` of a document). -/
abbrev Rec := ValFields

/-- Build a `ValFields` from a list literal, for concrete examples. -/
def recOf : List (String × Val) → ValFields
  | [] => .nil
  | (k, v) :: rest => .cons k v (recOf rest)

/-- Lookup of a field by name in a record. -/
def lookupF : ValFields → String → Option Val
  | .nil, _ => none
  | .cons k v rest, n => if n = k then some v else lookupF rest n

/-- Whether a record has a field of the given name. -/
def hasField (fs : ValFields) (n : String) : Bool :=
  (lookupF fs n).isSome

/-- Whether a record is the empty dict (Python-falsy). -/
def isEmptyF : ValFields → Bool
  | .nil => true
  | .cons _ _ _ => false

/-- Whether a value is Python `None` (an absent value in a partial dump). -/
def isNullVal : Val → Bool
  | .null => true
  | _ => false

/-- Concatenation of field lists. -/
def appendF : ValFields → ValFields → ValFields
  | .nil, b => b
  | .cons k v rest, b => .cons k v (appendF rest b)

mutual
/-- Structural equality of stored values, as exact-match field comparison
in `find` uses it.  Modelled from the spec (§4.2 `find`: filter fields
must "equal the corresponding stored field exactly"). -/
def valBeq : Val → Val → Bool
  | .str a, .str b => a == b
  | .int a, .int b => a == b
  | .fl a, .fl b => a == b
  | .bool a, .bool b => a == b
  | .null, .null => true
  | .arr a, .arr b => valListBeq a b
  | .obj a, .obj b => valFieldsBeq a b
  | _, _ => false

def valListBeq : ValList → ValList → Bool
  | .nil, .nil => true
  | .cons v r, .cons v' r' => valBeq v v' && valListBeq r r'
  | _, _ => false

def valFieldsBeq : ValFields → ValFields → Bool
  | .nil, .nil => true
  | .cons k v r, .cons k' v' r' => k == k' && valBeq v v' && valFieldsBeq r r'
  | _, _ => false
end

mutual
/-- Modelled from the spec: deep merge of a partial payload into an
existing value (§4.2 `merge`): object-valued fields merge recursively
field-by-field, scalar and array fields are replaced wholesale, and only
non-absent (non-`None`) new values participate.  This is the behavior of
the native `Quipu.merge_doc` (qbase.pyx, not under src/). -/
def deepMergeVal : Val → Val → Val
  | .obj a, .obj b => .obj (appendF (overlayAllF a b) (newOnlyF a b))
  | _, b => b

/-- Overlay every existing field of `old` with its merged value from `new`. -/
def overlayAllF : ValFields → ValFields → ValFields
  | .nil, _ => .nil
  | .cons k v rest, newFs => .cons k (overlayOneF k v newFs) (overlayAllF rest newFs)

/-- Merged value for one existing field: walk `new` looking for the field
name; keep the old value when the field is absent or `None` in `new`. -/
def overlayOneF : String → Val → ValFields → Val
  | _, v, .nil => v
  | k, v, .cons k' nv rest =>
    if k = k' then (if isNullVal nv then v else deepMergeVal v nv)
    else overlayOneF k v rest

/-- Fields present (non-`None`) in `new` but not declared in `old`,
appended after the overlaid old fields. -/
def newOnlyF : ValFields → ValFields → ValFields
  | _, .nil => .nil
  | oldFs, .cons k nv rest =>
    if hasField oldFs k || isNullVal nv then newOnlyF oldFs rest
    else .cons k nv (newOnlyF oldFs rest)
end

/-- Modelled from the spec: record-level deep merge, the top of
`deepMergeVal` applied to the two field maps. -/
def mergeRecordF (old new : ValFields) : ValFields :=
  appendF (overlayAllF old new) (newOnlyF old new)

/-- A namespace's storage partition: the association of record keys to
serialized records, kept in key order (the storage primitive is an
ordered key-value engine, spec §6: `iterateInKeyOrder`). -/
abbrev Partition := List (String × ValFields)

/-- Modelled from the spec: point lookup `getByKey` of the storage
primitive (§6), as used by the native `Quipu.get_doc`. -/
def getByKey : Partition → String → Option ValFields
  | [], _ => none
  | (a, v) :: rest, k => if k = a then some v else getByKey rest k

/-- Modelled from the spec: durable write `putByKey` of the storage
primitive (§6), replacing the record when the key is present and
otherwise inserting at its key-ordered position, as the native
`Quipu.put_doc` does against RocksDB. -/
def putByKey : Partition → String → ValFields → Partition
  | [], k, v => [(k, v)]
  | (a, w) :: rest, k, v =>
    if k = a then (k, v) :: rest
    else if k < a then (k, v) :: (a, w) :: rest
    else (a, w) :: putByKey rest k v

/-- Modelled from the spec: `deleteByKey` of the storage primitive (§6);
removing an absent key is a no-op. -/
def deleteByKey : Partition → String → Partition
  | [], _ => []
  | (a, w) :: rest, k => if k = a then rest else (a, w) :: deleteByKey rest k

/-- Modelled from the spec: the native `Quipu.exists` presence check
(§4.2 `exists`). -/
def keyExists (p : Partition) (k : String) : Bool :=
  (getByKey p k).isSome

/-- Modelled from the spec: the native `Quipu.merge_doc` (§4.2 `merge`):
deep-merges the partial values into the existing record, `none` (NotFound)
when the key does not exist; it never creates a record. -/
def quipuMergeDoc (p : Partition) (k : String) (v : ValFields) : Option Partition :=
  match getByKey p k with
  | none => none
  | some old => some (putByKey p k (mergeRecordF old v))

/-- Modelled from the spec: the native `Quipu.scan_docs` (§4.2 `scan`):
records in persisted key order, skipping `offset` and returning at most
`limit`. -/
def quipuScanDocs (p : Partition) (limit offset : Nat) : List ValFields :=
  ((p.drop offset).take limit).map (·.2)

/-- Modelled from the spec: the exact-match conjunction filter of
`find` (§4.2): every non-absent filter field must equal the stored field. -/
def matchesFilter (r : ValFields) : ValFields → Bool
  | .nil => true
  | .cons k v rest =>
    (if isNullVal v then true
     else match lookupF r k with
          | some sv => valBeq sv v
          | none => false)
    && matchesFilter r rest

/-- Modelled from the spec: the native `Quipu.find_docs` (§4.2 `find`):
unmatching records are excluded before pagination is applied. -/
def quipuFindDocs (p : Partition) (limit offset : Nat) (filt : ValFields) : List ValFields :=
  (((p.filter (fun kv => matchesFilter kv.2 filt)).drop offset).take limit).map (·.2)

/-- Modelled from the spec: the native `Quipu.count` (§4.2 `count`). -/
def quipuCount (p : Partition) : Nat :=
  p.length

/-- The uniform response envelope (qdoc.py `Status`). -/
structure Status where
  code : Nat
  message : String
  key : Option String
deriving DecidableEq, Repr

/-- Error surfaced by `merge_doc` on an absent key (spec §7 taxonomy). -/
inductive QErr where
  | notFound
deriving DecidableEq, Repr

/-- Embedding of `QDocument.put_doc` (qdoc.py lines 70-75): when the key
already exists the store-level merge is invoked first, and then —
unconditionally — the full `model_dump()` is written with the store-level
put; the Status is 201 on both paths.  `p` is the partition of the
document's class and `dump` its `model_dump()` (which always contains
every model field). -/
def QDocument.put_doc (p : Partition) (key : String) (dump : ValFields) :
    Partition × Status :=
  let p1 := if keyExists p key then (quipuMergeDoc p key dump).getD p else p
  let p2 := putByKey p1 key dump
  (p2, ⟨201, "Document created", some key⟩)

/-- Embedding of `QDocument.merge_doc` (qdoc.py lines 85-88): delegates to
the native `Quipu.merge_doc`; NotFound propagates to the caller (spec §7),
otherwise Status 200. -/
def QDocument.merge_doc (p : Partition) (key : String) (dump : ValFields) :
    Except QErr (Partition × Status) :=
  match quipuMergeDoc p key dump with
  | none => .error .notFound
  | some p' => .ok (p', ⟨200, "Document updated", some key⟩)

/-- Embedding of `QDocument.get_doc` (qdoc.py lines 77-83): the stored
dict when present and truthy (an empty dict yields `None`), re-validated
into the model (identity on the dict). -/
def QDocument.get_doc (p : Partition) (key : String) : Option ValFields :=
  match getByKey p key with
  | some d => if isEmptyF d then none else some d
  | none => none

/-- Embedding of `QDocument.delete_doc` (qdoc.py lines 90-94): deletes and
returns Status 204; deleting an absent key is not an error. -/
def QDocument.delete_doc (p : Partition) (key : String) : Partition × Status :=
  (deleteByKey p key, ⟨204, "Document deleted", some key⟩)

/-- Embedding of `QDocument.scan_docs` (qdoc.py lines 96-102). -/
def QDocument.scan_docs (p : Partition) (limit offset : Nat) : List ValFields :=
  quipuScanDocs p limit offset

/-- Embedding of `QDocument.find_docs` (qdoc.py lines 104-110): the keyword
arguments are the filter dict. -/
def QDocument.find_docs (p : Partition) (limit offset : Nat) (filt : ValFields) :
    List ValFields :=
  quipuFindDocs p limit offset filt

/-- The process-wide map from class name to that class's own `Quipu`
partition (qdoc.py `__init_subclass__`, lines 60-68: `_db_instances` keyed
by `cls.__name__`, one `Quipu(f"db/{cls.__name__}")` directory each).
A never-touched namespace is the empty partition. -/
abbrev GlobalStore := String → Partition

/-- Replace one namespace's partition, leaving every other untouched. -/
def updateNs (g : GlobalStore) (ns : String) (p : Partition) : GlobalStore :=
  fun n => if n = ns then p else g n

/-- `put_doc` performed under one namespace of the global store. -/
def putDocNs (g : GlobalStore) (ns key : String) (dump : ValFields) :
    GlobalStore × Status :=
  let r := QDocument.put_doc (g ns) key dump
  (updateNs g ns r.1, r.2)

/-- `merge_doc` performed under one namespace of the global store; on
NotFound the store is unchanged. -/
def mergeDocNs (g : GlobalStore) (ns key : String) (dump : ValFields) : GlobalStore :=
  match QDocument.merge_doc (g ns) key dump with
  | .ok (p', _) => updateNs g ns p'
  | .error _ => g

/-- `delete_doc` performed under one namespace of the global store. -/
def deleteDocNs (g : GlobalStore) (ns key : String) : GlobalStore :=
  updateNs g ns (QDocument.delete_doc (g ns) key).1

/-- `get_doc` performed under one namespace of the global store. -/
def getDocNs (g : GlobalStore) (ns key : String) : Option ValFields :=
  QDocument.get_doc (g ns) key

/-- `scan_docs` performed under one namespace of the global store. -/
def scanDocsNs (g : GlobalStore) (ns : String) (limit offset : Nat) : List ValFields :=
  QDocument.scan_docs (g ns) limit offset

/-- `count` performed under one namespace of the global store. -/
def countNs (g : GlobalStore) (ns : String) : Nat :=
  quipuCount (g ns)

/-- The closed 8-action protocol (qschemas.py `Action` literal type; named
`QAction` here to avoid a clash with an unrelated library name). -/
inductive QAction where
  | putDoc | getDoc | mergeDoc | deleteDoc | findDocs | scanDocs | countDocs | existsDoc
deriving DecidableEq, Repr

/-- The string form of an action, as interpolated into error messages. -/
def actionName : QAction → String
  | .putDoc => "putDoc"
  | .getDoc => "getDoc"
  | .mergeDoc => "mergeDoc"
  | .deleteDoc => "deleteDoc"
  | .findDocs => "findDocs"
  | .scanDocs => "scanDocs"
  | .countDocs => "countDocs"
  | .existsDoc => "existsDoc"

/-- The request body (qschemas.py `TypeDef`): an optional `data` payload
and the JSON-schema `definition`. -/
structure TypeDef where
  data : Option ValFields
  definition : Schema

/-- The compilation mode chosen by `create_class` (qapi.py lines 10-24):
partial exactly for `mergeDoc` and `findDocs`. -/
def optModeOf (a : QAction) : Bool :=
  a = .mergeDoc || a = .findDocs

/-- Embedding of `create_class` (qapi.py lines 10-24): compile the body's
schema in the mode of the action.  The class name is the schema's title
(default `"Model"`), which is also the name of the storage partition the
resulting class binds to (qdoc.py `__init_subclass__`). -/
def createClass (a : QAction) (td : TypeDef) : PyType :=
  createModel td.definition (optModeOf a)

/-- Pydantic construction `klass(namespace=..., **data)` at the level the
dispatcher depends on: the `namespace` keyword is dropped (the model
declares no such field and pydantic ignores extra keys); `key` comes from
the payload when it is a string, else from the `uuid4` default factory
(passed in as `freshKey`); each declared field takes the payload value
when present, a required field missing from the payload is a validation
error, an optional one dumps as `None`.  The resulting dump is `key`
followed by the declared fields, as `model_dump()` orders them. -/
def pydInit (fields : List (String × PyType × Bool)) (freshKey : String)
    (data : ValFields) : Except String (String × ValFields) :=
  let key := match lookupF data "key" with
    | some (.str s) => s
    | _ => freshKey
  match fieldDumps fields data with
  | .error e => .error e
  | .ok fs => .ok (key, .cons "key" (.str key) fs)
where
  fieldDumps : List (String × PyType × Bool) → ValFields → Except String ValFields
    | [], _ => .ok .nil
    | (n, _, req) :: rest, d =>
      match fieldDumps rest d with
      | .error e => .error e
      | .ok tl =>
        match lookupF d n with
        | some v => .ok (.cons n v tl)
        | none => if req then .error ("Field required: " ++ n) else .ok (.cons n .null tl)

/-- Python `limit or 1000` / `offset or 0`: `None` and `0` are both falsy
and replaced by the default (qapi.py lines 70-72, 87-88). -/
def pyOr (x : Option Nat) (d : Nat) : Nat :=
  match x with
  | some n => if n = 0 then d else n
  | none => d

/-- Result of one dispatched request (qapi.py route body): a Status
envelope, a document, a list, a count, a boolean, a surfaced NotFound, or
a validation failure (`assert`/HTTP 400) raised before any store access. -/
inductive DispatchResult where
  | status (s : Status)
  | doc (r : Option ValFields)
  | docs (rs : List ValFields)
  | countR (n : Nat)
  | boolR (b : Bool)
  | notFound
  | invalid (msg : String)

/-- Embedding of the qapi.py route body (lines 42-102).  The class is
compiled first (line 58, unconditionally); `putDoc`/`mergeDoc`/`findDocs`
assert a non-absent `data`; the other five actions assert a non-absent
`key` — all five, including `scanDocs` and `countDocs` — and reject a
present `data` with HTTP 400.  Store operations address the partition
named by the compiled class name (the schema title), and `limit`/`offset`
default through Python `or`. -/
def dispatch (g : GlobalStore) (freshKey nsp : String) (a : QAction)
    (key : Option String) (limit offset : Option Nat) (td : TypeDef) :
    GlobalStore × DispatchResult :=
  let cname := className td.definition
  let fields := createModelFields td.definition (optModeOf a)
  match a with
  | .putDoc =>
    match td.data with
    | none => (g, .invalid ("Data must be provided for action `" ++ actionName a ++ "`"))
    | some data =>
      match pydInit fields freshKey data with
      | .error e => (g, .invalid e)
      | .ok (k, dump) =>
        let r := QDocument.put_doc (g cname) k dump
        (updateNs g cname r.1, .status r.2)
  | .mergeDoc =>
    match td.data with
    | none => (g, .invalid ("Data must be provided for action `" ++ actionName a ++ "`"))
    | some data =>
      match pydInit fields freshKey data with
      | .error e => (g, .invalid e)
      | .ok (k, dump) =>
        match QDocument.merge_doc (g cname) k dump with
        | .error _ => (g, .notFound)
        | .ok (p', st) => (updateNs g cname p', .status st)
  | .findDocs =>
    match td.data with
    | none => (g, .invalid ("Data must be provided for action `" ++ actionName a ++ "`"))
    | some data =>
      (g, .docs (QDocument.find_docs (g cname) (pyOr limit 1000) (pyOr offset 0)
        (.cons "namespace" (.str nsp) data)))
  | .getDoc =>
    match key with
    | none => (g, .invalid ("Key must be provided for action `" ++ actionName a ++ "`"))
    | some k =>
      match td.data with
      | some _ => (g, .invalid "Data must not be provided for this action")
      | none => (g, .doc (QDocument.get_doc (g cname) k))
  | .deleteDoc =>
    match key with
    | none => (g, .invalid ("Key must be provided for action `" ++ actionName a ++ "`"))
    | some k =>
      match td.data with
      | some _ => (g, .invalid "Data must not be provided for this action")
      | none =>
        let r := QDocument.delete_doc (g cname) k
        (updateNs g cname r.1, .status r.2)
  | .scanDocs =>
    match key with
    | none => (g, .invalid ("Key must be provided for action `" ++ actionName a ++ "`"))
    | some _ =>
      match td.data with
      | some _ => (g, .invalid "Data must not be provided for this action")
      | none => (g, .docs (QDocument.scan_docs (g cname) (pyOr limit 1000) (pyOr offset 0)))
  | .countDocs =>
    match key with
    | none => (g, .invalid ("Key must be provided for action `" ++ actionName a ++ "`"))
    | some _ =>
      match td.data with
      | some _ => (g, .invalid "Data must not be provided for this action")
      | none => (g, .countR (quipuCount (g cname)))
  | .existsDoc =>
    match key with
    | none => (g, .invalid ("Key must be provided for action `" ++ actionName a ++ "`"))
    | some k =>
      match td.data with
      | some _ => (g, .invalid "Data must not be provided for this action")
      | none => (g, .boolR (keyExists (g cname) k))

/-- Number of pydantic model builds performed while handling one request:
the route body runs `create_class` (qapi.py line 58) on every call, so
each request compiles its schema in full.  The qapi module keeps no cache
keyed by namespace or schema hash, so the count of a request does not
depend on the requests handled before it; `processCounts` makes that
statelessness explicit. -/
def requestBuilds (_a : QAction) (td : TypeDef) : Nat :=
  modelBuilds td.definition

/-- Per-request model-build counts for a sequence of requests, in order. -/
def processCounts (rs : List (QAction × TypeDef)) : List Nat :=
  rs.map (fun r => requestBuilds r.1 r.2)

/-- Writing a key and reading it back yields exactly the written record. -/
theorem getByKey_putByKey_self (p : Partition) (k : String) (v : ValFields) :
    getByKey (putByKey p k v) k = some v := by
  induction p with
  | nil => simp [putByKey, getByKey]
  | cons hd tl ih =>
    obtain ⟨a, w⟩ := hd
    by_cases h1 : k = a
    · simp [putByKey, h1, getByKey]
    · by_cases h2 : k < a
      · simp [putByKey, h1, h2, getByKey]
      · simp [putByKey, h1, h2, getByKey, ih]

/-- Writing one key leaves every other key's lookup unchanged. -/
theorem getByKey_putByKey_ne (p : Partition) (k k' : String) (v : ValFields)
    (h : k' ≠ k) : getByKey (putByKey p k v) k' = getByKey p k' := by
  induction p with
  | nil => simp [putByKey, getByKey, h]
  | cons hd tl ih =>
    obtain ⟨a, w⟩ := hd
    by_cases h1 : k = a
    · subst h1
      simp [putByKey, getByKey, h]
    · by_cases h2 : k < a
      · simp [putByKey, h1, h2, getByKey, h]
      · by_cases h3 : k' = a
        · simp [putByKey, h1, h2, getByKey, h3]
        · simp [putByKey, h1, h2, getByKey, h3, ih]

/-- In non-partial mode, every attribute built by the property loop is
marked required. -/
theorem castFields_required : (ps : Props) →
    ∀ n t r, (n, t, r) ∈ castFields ps false → r = true
  | .nil => by intro n t r h; simp [castFields] at h
  | .cons k v rest => by
    intro n t r h
    simp only [castFields, Bool.false_eq_true, if_false, List.mem_cons,
      Prod.mk.injEq] at h
    rcases h with ⟨-, -, rfl⟩ | h
    · rfl
    · exact castFields_required rest n t r h

/-- Every schema compilation performs at least one `create_model` build. -/
theorem modelBuilds_pos (s : Schema) : 1 ≤ modelBuilds s := by
  cases s with
  | mk t ty pr it en rq ao oo => simp [modelBuilds]

/-- Updating one namespace leaves every other namespace's partition
untouched. -/
theorem updateNs_ne (g : GlobalStore) (ns ns' : String) (p : Partition)
    (h : ns' ≠ ns) : updateNs g ns p ns' = g ns' := by
  simp [updateNs, h]

/-- C1 (counterexample): from a stored record `{a:1, b:2}` under key
`"k"`, `put_doc` of the payload `{a:9}` on the same key leaves the stored
record equal to `{a:9}` — not the merged `{a:9, b:2}` the claim requires:
the unconditional store-level put on qdoc.py line 74 overwrites the result
of the merge performed on line 73. -/
theorem c1_put_counterexample :
    getByKey (QDocument.put_doc [("k", recOf [("a", .int 1), ("b", .int 2)])]
        "k" (recOf [("a", .int 9)])).1 "k"
      = some (recOf [("a", .int 9)]) ∧
    recOf [("a", .int 9)] ≠ recOf [("a", .int 9), ("b", .int 2)] := by
  constructor
  · rfl
  · simp [recOf]

/-- C1 (amended): a `put_doc` on an existing key does not preserve the
fields omitted by the new payload: after the internal merge, the
unconditional store-level put replaces the stored record with exactly the
new payload's dump, so the record stored under the key is the dump itself
on both the fresh-key and the existing-key path. -/
theorem c1_put_replaces (p : Partition) (k : String) (dump : ValFields) :
    getByKey (QDocument.put_doc p k dump).1 k = some dump := by
  simp only [QDocument.put_doc]
  exact getByKey_putByKey_self _ k dump

/-- C2: namespace isolation.  A record put under namespace `ns` is never
seen by `get`, `scan` or `count` under a distinct namespace `ns'`, and
`put`, `merge` and `delete` each leave every foreign partition untouched:
each document class owns its own `Quipu` partition keyed by its class
name (qdoc.py `__init_subclass__`). -/
theorem c2_namespace_isolation (g : GlobalStore) (ns ns' k k' : String)
    (d : ValFields) (limit offset : Nat) (h : ns' ≠ ns) :
    getDocNs (putDocNs g ns k d).1 ns' k' = getDocNs g ns' k' ∧
    scanDocsNs (putDocNs g ns k d).1 ns' limit offset = scanDocsNs g ns' limit offset ∧
    countNs (putDocNs g ns k d).1 ns' = countNs g ns' ∧
    (putDocNs g ns k d).1 ns' = g ns' ∧
    mergeDocNs g ns k d ns' = g ns' ∧
    deleteDocNs g ns k ns' = g ns' := by
  have hupd : ∀ p, updateNs g ns p ns' = g ns' := fun p => updateNs_ne g ns ns' p h
  refine ⟨?_, ?_, ?_, ?_, ?_, ?_⟩
  · simp [getDocNs, putDocNs, hupd]
  · simp [scanDocsNs, putDocNs, hupd]
  · simp [countNs, putDocNs, hupd]
  · simp [putDocNs, hupd]
  · rcases hm : QDocument.merge_doc (g ns) k d with e | ⟨p', st⟩ <;>
      simp [mergeDocNs, hm, hupd]
  · simp [deleteDocNs, hupd]

/-- C2 (witness): concrete instance at namespaces `"X"` and `"Y"`. -/
theorem c2_namespace_isolation_witness :
    ("Y" : String) ≠ "X" ∧
    getDocNs (putDocNs (fun _ => []) "X" "k" (recOf [("a", .int 1)])).1 "Y" "k"
      = getDocNs (fun _ => []) "Y" "k" :=
  ⟨by decide,
   (c2_namespace_isolation (fun _ => []) "X" "Y" "k" "k" (recOf [("a", .int 1)])
     1000 0 (by decide)).1⟩

/-- C8: `merge_doc` on a key absent from the namespace fails with
NotFound, and a successful merge never creates or removes a record: the
key set of the partition is unchanged. -/
theorem c8_merge_requires_existence (p : Partition) (k : String) (d : ValFields) :
    (keyExists p k = false → QDocument.merge_doc p k d = .error .notFound) ∧
    (∀ p' st, QDocument.merge_doc p k d = .ok (p', st) →
      ∀ k', keyExists p' k' = keyExists p k') := by
  constructor
  · intro h
    have hget : getByKey p k = none := by
      rcases hg : getByKey p k with _ | v
      · rfl
      · simp [keyExists, hg] at h
    simp [QDocument.merge_doc, quipuMergeDoc, hget]
  · intro p' st hok k'
    unfold QDocument.merge_doc quipuMergeDoc at hok
    rcases hget : getByKey p k with _ | old
    · rw [hget] at hok; exact absurd hok (by simp)
    · rw [hget] at hok
      simp only [Except.ok.injEq, Prod.mk.injEq] at hok
      obtain ⟨hp', -⟩ := hok
      subst hp'
      by_cases hk : k' = k
      · subst hk
        simp [keyExists, getByKey_putByKey_self, hget]
      · simp [keyExists, getByKey_putByKey_ne _ _ _ _ hk]

/-- C8 (witness): merging into an empty partition fails with NotFound. -/
theorem c8_merge_requires_existence_witness :
    keyExists ([] : Partition) "k" = false ∧
    QDocument.merge_doc ([] : Partition) "k" (recOf [("a", .int 1)]) = .error .notFound :=
  ⟨rfl, (c8_merge_requires_existence [] "k" (recOf [("a", .int 1)])).1 rfl⟩

/-- C9: every successful `put_doc` returns Status code 201 with the
message "Document created" and the record's key, on the fresh-key path
and on the existing-key (merge) path alike — the function returns the
same Status unconditionally (qdoc.py line 75). -/
theorem c9_put_returns_201 (p : Partition) (k : String) (dump : ValFields) :
    (QDocument.put_doc p k dump).2 = ⟨201, "Document created", some k⟩ := rfl

/-- C3 (counterexample): a `scanDocs` request with no key supplied is not
dispatched to the store — it fails the key assertion (qapi.py line 77,
which covers all five no-payload actions) and returns a validation error,
even when the store holds records. -/
theorem c3_scan_without_key_counterexample :
    dispatch (fun _ => [("k", recOf [("a", .int 1)])]) "u" "ns" .scanDocs
        none none none ⟨none, .mk none none .none .none none none .none .none⟩
      = ((fun _ => [("k", recOf [("a", .int 1)])]),
         .invalid "Key must be provided for action `scanDocs`") := rfl

/-- C3 (amended): all five no-payload actions — `getDoc`, `deleteDoc`,
`scanDocs`, `countDocs` and `existsDoc` — require a non-absent key before
routing: with no key the request fails the assertion and the store is
untouched. -/
theorem c3_all_five_require_key (g : GlobalStore) (fk nsp : String) (a : QAction)
    (limit offset : Option Nat) (td : TypeDef)
    (h : a = .getDoc ∨ a = .deleteDoc ∨ a = .scanDocs ∨ a = .countDocs ∨ a = .existsDoc) :
    dispatch g fk nsp a none limit offset td
      = (g, .invalid ("Key must be provided for action `" ++ actionName a ++ "`")) := by
  rcases h with rfl | rfl | rfl | rfl | rfl <;> rfl

/-- C3 (witness): the amended claim at `countDocs` with no key. -/
theorem c3_all_five_require_key_witness :
    dispatch (fun _ => []) "u" "ns" .countDocs none none none
        ⟨none, .mk none none .none .none none none .none .none⟩
      = ((fun _ => []), .invalid "Key must be provided for action `countDocs`") :=
  c3_all_five_require_key (fun _ => []) "u" "ns" .countDocs none none
    ⟨none, .mk none none .none .none none none .none .none⟩
    (Or.inr (Or.inr (Or.inr (Or.inl rfl))))

/-- C4 (counterexample): with `properties` `{a, b}` and `required`
`["a"]`, non-partial compilation marks `b` mandatory as well: the
compiled shape is not "exactly the fields listed in `required`" —
`create_model_from_json_schema` never reads the `required` key. -/
theorem c4_required_ignored_counterexample :
    Schema.required (.mk (some "M") (some "object")
        (.some (.cons "a" (.mk none (some "string") .none .none none none .none .none)
          (.cons "b" (.mk none (some "string") .none .none none none .none .none) .nil)))
        .none none (some ["a"]) .none .none) = some ["a"] ∧
    createModelFields (.mk (some "M") (some "object")
        (.some (.cons "a" (.mk none (some "string") .none .none none none .none .none)
          (.cons "b" (.mk none (some "string") .none .none none none .none .none) .nil)))
        .none none (some ["a"]) .none .none) false
      = [("a", .prim "str", true), ("b", .prim "str", true)] := ⟨rfl, rfl⟩

/-- C4 (amended): in non-partial mode every declared property is
mandatory, whatever the schema's `required` list says — the compiler
ignores `required` entirely. -/
theorem c4_nonpartial_all_mandatory (s : Schema) :
    ∀ n t r, (n, t, r) ∈ createModelFields s false → r = true := by
  intro n t r h
  unfold createModelFields at h
  rcases hp : Schema.props s with _ | ps
  · rw [hp] at h; simp at h
  · rw [hp] at h; exact castFields_required ps n t r h

/-- C4 (witness): the amended claim at a concrete schema where `required`
lists only `"a"` yet `"b"` compiles as mandatory. -/
theorem c4_nonpartial_all_mandatory_witness :
    ("b", PyType.prim "str", true) ∈ createModelFields (.mk (some "M") (some "object")
        (.some (.cons "a" (.mk none (some "string") .none .none none none .none .none)
          (.cons "b" (.mk none (some "string") .none .none none none .none .none) .nil)))
        .none none (some ["a"]) .none .none) false ∧
    true = true :=
  ⟨by simp [createModelFields, Schema.props, castFields]; rfl,
   c4_nonpartial_all_mandatory (.mk (some "M") (some "object")
      (.some (.cons "a" (.mk none (some "string") .none .none none none .none .none)
        (.cons "b" (.mk none (some "string") .none .none none none .none .none) .nil)))
      .none none (some ["a"]) .none .none) "b" (.prim "str") true
      (by simp [createModelFields, Schema.props, castFields]; rfl)⟩

/-- C5 (counterexample): handling the same request twice compiles the
schema twice — the second identical request performs one fresh model
build (`[1, 1]`), where a cache hit would have performed none: neither
qapi.py nor qschemas.py keeps any memo keyed by namespace or schema
hash. -/
theorem c5_no_cache_counterexample :
    processCounts [(.putDoc, ⟨none, .mk none none .none .none none none .none .none⟩),
                   (.putDoc, ⟨none, .mk none none .none .none none none .none .none⟩)]
      = [1, 1] := rfl

/-- C5 (amended): schema compilation is never served from a cache: every
request in any request sequence — repeats of an identical schema included
— performs at least one fresh `create_model` build. -/
theorem c5_every_request_compiles (rs : List (QAction × TypeDef)) :
    ∀ c ∈ processCounts rs, 1 ≤ c := by
  intro c hc
  unfold processCounts at hc
  rcases List.mem_map.1 hc with ⟨r, -, rfl⟩
  exact modelBuilds_pos r.2.definition

/-- C5 (witness): the amended claim at a concrete repeated request. -/
theorem c5_every_request_compiles_witness :
    (1 : Nat) ∈ processCounts
        [(.putDoc, ⟨none, .mk none none .none .none none none .none .none⟩),
         (.putDoc, ⟨none, .mk none none .none .none none none .none .none⟩)] ∧
    1 ≤ (1 : Nat) :=
  ⟨by simp [processCounts, requestBuilds, modelBuilds],
   c5_every_request_compiles
     [(.putDoc, ⟨none, .mk none none .none .none none none .none .none⟩),
      (.putDoc, ⟨none, .mk none none .none .none none none .none .none⟩)] 1
     (by simp [processCounts, requestBuilds, modelBuilds])⟩

/-- C6 (counterexample): a sub-schema whose `enum` mixes an integer and a
string literal does not fail compilation: `cast_to_type` falls through to
`Any`, and embedding it as a property silently produces a field of type
`Any` — the code base contains no `SchemaError` at all. -/
theorem c6_mixed_enum_counterexample :
    allSameLitType [.int 1, .str "a"] = false ∧
    castToType (.mk none none .none .none (some [.int 1, .str "a"]) none .none .none)
      = .any ∧
    createModelFields (.mk (some "M") (some "object")
        (.some (.cons "x"
          (.mk none none .none .none (some [.int 1, .str "a"]) none .none .none) .nil))
        .none none none .none .none) false
      = [("x", .any, true)] := ⟨rfl, rfl, rfl⟩

/-- C6 (amended): for every sub-schema declaring an `enum` whose literals
do not all share one primitive type, `cast_to_type` silently returns
`Any` instead of failing. -/
theorem c6_mixed_enum_yields_any (s : Schema) (vs : List Lit)
    (henum : Schema.enumv s = some vs) (hmixed : allSameLitType vs = false) :
    castToType s = .any := by
  cases s with
  | mk t ty pr it en rq ao oo =>
    simp only [Schema.enumv] at henum
    subst henum
    simp [castToType, hmixed]

/-- C6 (witness): the amended claim at the mixed `{1, "a"}` enum. -/
theorem c6_mixed_enum_yields_any_witness :
    Schema.enumv (.mk none none .none .none (some [.int 1, .str "a"]) none .none .none)
      = some [.int 1, .str "a"] ∧
    allSameLitType [.int 1, .str "a"] = false ∧
    castToType (.mk none none .none .none (some [.int 1, .str "a"]) none .none .none)
      = .any :=
  ⟨rfl, rfl,
   c6_mixed_enum_yields_any
     (.mk none none .none .none (some [.int 1, .str "a"]) none .none .none)
     [.int 1, .str "a"] rfl rfl⟩

/-- C7 (counterexample): on a sub-schema holding only
`anyOf: [{type: integer}, {type: string}]`, `parse_anyof_oneof` would
build the union `int | str`, but the compiler (`cast_to_type`) — which
never calls it — produces the plain `str` field of the defaulted
primitive branch, not a union. -/
theorem c7_anyof_counterexample :
    parseAnyofOneof (.mk none none .none .none none none
        (.some (.cons (.mk none (some "integer") .none .none none none .none .none)
          (.cons (.mk none (some "string") .none .none none none .none .none) .nil)))
        .none)
      = some (.union [.prim "int", .prim "str"]) ∧
    castToType (.mk none none .none .none none none
        (.some (.cons (.mk none (some "integer") .none .none none none .none .none)
          (.cons (.mk none (some "string") .none .none none none .none .none) .nil)))
        .none)
      = .prim "str" ∧
    PyType.prim "str" ≠ PyType.union [.prim "int", .prim "str"] :=
  ⟨rfl, rfl, by simp⟩

/-- C7 (amended): the compiler ignores `anyOf`/`oneOf` entirely: removing
both keys from a sub-schema never changes its compiled field —
`parse_anyof_oneof` exists in the module but is invoked by neither
`cast_to_type` nor `create_model_from_json_schema`, so no Union field is
ever produced during compilation. -/
theorem c7_anyof_ignored (s : Schema) :
    castToType (stripUnions s) = castToType s := by
  cases s with
  | mk t ty pr it en rq ao oo =>
    conv_lhs => rw [castToType.eq_def]
    conv_rhs => rw [castToType.eq_def]
    rfl

/-- C10: an explicit `limit=0` is falsy in Python, so `limit or 1000`
replaces it by the default: a `scanDocs` request with `limit=0` (and
default offset) is dispatched with limit 1000 and returns records — a
non-empty list — whenever the addressed partition is non-empty, and a
`findDocs` request with `limit=0` behaves exactly as one with
`limit=1000`. -/
theorem c10_limit_zero_coerced (g : GlobalStore) (fk nsp k : String) (td : TypeDef)
    (hdata : td.data = none) (hne : g (className td.definition) ≠ []) :
    dispatch g fk nsp .scanDocs (some k) (some 0) none td
      = (g, .docs (QDocument.scan_docs (g (className td.definition)) 1000 0)) ∧
    QDocument.scan_docs (g (className td.definition)) 1000 0 ≠ [] ∧
    (∀ (td' : TypeDef) (k' : Option String) (o : Option Nat),
      dispatch g fk nsp .findDocs k' (some 0) o td'
        = dispatch g fk nsp .findDocs k' (some 1000) o td') := by
  refine ⟨?_, ?_, ?_⟩
  · simp [dispatch, hdata, pyOr]
  · rcases hgp : g (className td.definition) with _ | ⟨⟨a, r⟩, rest⟩
    · exact absurd hgp hne
    · simp [QDocument.scan_docs, quipuScanDocs]
  · intro td' k' o
    rcases td'.data with _ | data <;> simp [dispatch, pyOr]

/-- C10 (witness): a one-record store under the default class name
`"Model"`; the `limit=0` scan returns that record. -/
theorem c10_limit_zero_coerced_witness :
    TypeDef.data ⟨none, .mk none none .none .none none none .none .none⟩ = none ∧
    (fun (_ : String) => [("k", recOf [("a", .int 1)])])
        (className (TypeDef.definition ⟨none, .mk none none .none .none none none .none .none⟩))
      ≠ [] ∧
    dispatch (fun _ => [("k", recOf [("a", .int 1)])]) "u" "ns" .scanDocs
        (some "x") (some 0) none ⟨none, .mk none none .none .none none none .none .none⟩
      = ((fun _ => [("k", recOf [("a", .int 1)])]),
         .docs (QDocument.scan_docs
           ((fun (_ : String) => [("k", recOf [("a", .int 1)])])
             (className (TypeDef.definition
               ⟨none, .mk none none .none .none none none .none .none⟩))) 1000 0)) :=
  ⟨rfl, by simp [className, Schema.title, recOf],
   (c10_limit_zero_coerced (fun _ => [("k", recOf [("a", .int 1)])]) "u" "ns" "x"
     ⟨none, .mk none none .none .none none none .none .none⟩ rfl
     (by simp [className, Schema.title, recOf])).1⟩
